import Mathlib

/-
Verification of the rocket NPU driver's buffer-residency and power-management
behaviour (drivers/accel/rocket).  The definitions below are a shallow
embedding of the C sources: `rocket_gem.c` (buffer creation, free,
prepare/finish CPU access), `rocket_drv.c` / the component-based driver file
(runtime suspend) and `rocket_core.h` (per-core state).  External kernel
collaborators (shmem allocation, `dma_resv_wait_timeout`, `iommu_map_sgtable`,
`iommu_unmap`, clocks) are modelled as explicit parameters or event traces.
-/

namespace Rocket

/-! ## Constants from the uapi header and errno values -/

/-- ROCKET_PREP_READ from include/uapi/drm/rocket_accel.h. -/
def ROCKET_PREP_READ : Nat := 0x01

/-- ROCKET_PREP_WRITE from include/uapi/drm/rocket_accel.h. -/
def ROCKET_PREP_WRITE : Nat := 0x02

/-- Linux errno EINVAL. -/
def EINVAL : Int := 22
/-- Linux errno ENOENT. -/
def ENOENT : Int := 2
/-- Linux errno ENOMEM. -/
def ENOMEM : Int := 12
/-- Linux errno EBUSY. -/
def EBUSY : Int := 16
/-- Linux errno ETIMEDOUT. -/
def ETIMEDOUT : Int := 110

/-! ## DMA data directions (linux/dma-direction.h) -/

/-- The enum dma_data_direction values used by the driver. -/
inductive DmaDataDirection where
  | bidirectional
  | toDevice
  | fromDevice
  deriving DecidableEq, Repr

/-- Embedding of `rocket_op_to_dma_dir` from rocket_gem.c: the READ bit is
tested first, so any op with the READ bit set gives DMA_FROM_DEVICE, then
WRITE alone gives DMA_TO_DEVICE, and everything else (op = 0) gives
DMA_BIDIRECTIONAL. -/
def rocket_op_to_dma_dir (op : Nat) : DmaDataDirection :=
  if op &&& ROCKET_PREP_READ ≠ 0 then .fromDevice
  else if op &&& ROCKET_PREP_WRITE ≠ 0 then .toDevice
  else .bidirectional

/-- The direction selection the specification describes for PrepareBuffer:
read maps to the device-to-CPU direction, write maps to the CPU-to-device
direction, and read together with write maps to the bidirectional direction.
This definition follows the spec's words and exists only to be compared with
`rocket_op_to_dma_dir`, which is the embedding of the source. -/
def spec_dma_dir (op : Nat) : DmaDataDirection :=
  if op &&& ROCKET_PREP_READ ≠ 0 ∧ op &&& ROCKET_PREP_WRITE ≠ 0 then .bidirectional
  else if op &&& ROCKET_PREP_READ ≠ 0 then .fromDevice
  else if op &&& ROCKET_PREP_WRITE ≠ 0 then .toDevice
  else .bidirectional

/-! ## Buffer objects -/

/-- The driver-private part of `struct rocket_gem_object` (rocket_gem.h) that
the claims are about: the (possibly alignment-rounded) mapped size and the
access mode recorded by the most recent PREP_BO ioctl. -/
structure RocketGemObject where
  size : Nat
  offset : Nat
  last_cpu_prep_op : Nat
  deriving DecidableEq, Repr

/-- Indices of the non-primary cores of a device with `numCores` cores, in
loop order: `for (core = 1; core < rdev->num_cores; core++)`. -/
def secondaryCores (numCores : Nat) : List Nat :=
  (List.range numCores).drop 1

example : secondaryCores 3 = [1, 2] := by decide
example : secondaryCores 1 = [] := by decide

/-! ## Buffer creation (`rocket_ioctl_create_bo`, rocket_gem.c)

The external collaborators are passed in as parameters:
`handleCreateRet` is the return of `drm_gem_handle_create` (0 on success),
`sgtOk` tells whether `drm_gem_shmem_get_pages_sgt` succeeded (this call also
maps the pages into core 0's IOMMU), `sgtRet` is its errno when it failed, and
`mapRet c` is the return of `iommu_map_sgtable` for secondary core `c`: the
number of bytes actually mapped, or a negative errno (in which case nothing
was mapped for that core). -/

/-- Outcome of the per-secondary-core mapping loop of `rocket_ioctl_create_bo`:
the returned code (0 on success, a negative errno on failure), the final
`rkt_obj->size` (updated to the possibly rounded-up mapped size after each
successful core), the secondary cores left mapped, and the cores that received
`dma_sync_sgtable_for_device`. -/
structure CreateLoopOut where
  ret : Int
  boSize : Nat
  mapped : List Nat
  synced : List Nat
  deriving DecidableEq, Repr

/-- Embedding of the `for (core = 1; core < rdev->num_cores; core++)` loop in
`rocket_ioctl_create_bo`.  For each core the scatter-list is mapped with
IOMMU_READ|IOMMU_WRITE; `ret < 0 || ret < args->size` aborts the loop with
-ENOMEM, leaving the cores mapped so far mapped (the error path never calls
`iommu_unmap` on them); otherwise `rkt_obj->size = ret` records the possibly
aligned size and the sgtable is synced for the device. -/
def createBoLoop (mapRet : Nat → Int) (requestSize : Nat) :
    List Nat → Nat → List Nat → List Nat → CreateLoopOut
  | [], boSize, mapped, synced => ⟨0, boSize, mapped, synced⟩
  | core :: rest, boSize, mapped, synced =>
    let r := mapRet core
    if r < 0 ∨ r < (requestSize : Int) then
      -- DRM_ERROR + goto err_unlock; a non-negative short map leaves this
      -- core partially mapped, a negative errno mapped nothing for it
      ⟨-ENOMEM, boSize, mapped ++ (if 0 ≤ r then [core] else []), synced⟩
    else
      createBoLoop mapRet requestSize rest r.toNat (mapped ++ [core]) (synced ++ [core])

/-- State left behind by one `rocket_ioctl_create_bo` call: the returned code,
the surviving buffer object (`none` when the object was freed on an error
path), whether the pages are still mapped in core 0's IOMMU (the shmem sgt
mapping), the secondary cores whose IOMMU mapping remains after the call, and
the cores synced for the device during creation. -/
structure CreateBoResult where
  ret : Int
  bo : Option RocketGemObject
  primaryMapped : Bool
  mappedSecondary : List Nat
  syncedForDevice : List Nat
  deriving DecidableEq, Repr

/-- Embedding of `rocket_ioctl_create_bo` (second, multi-core version in
rocket_gem.c).  After shmem creation and handle creation, the pages are
mapped into core 0's IOMMU by `drm_gem_shmem_get_pages_sgt`, then eagerly
into every secondary core's IOMMU under `rdev->iommu_lock`.  On loop failure
the code goes to `err_unlock`/`err` and calls `drm_gem_shmem_object_free`,
which frees the object and its core-0 mapping but does not touch the
secondary-core IOMMU mappings made earlier in the same call. -/
def rocket_ioctl_create_bo (numCores argsSize : Nat)
    (handleCreateRet : Int) (sgtOk : Bool) (sgtRet : Int)
    (mapRet : Nat → Int) : CreateBoResult :=
  if handleCreateRet ≠ 0 then
    -- err: drm_gem_shmem_object_free before any mapping happened
    ⟨handleCreateRet, none, false, [], []⟩
  else if ¬ sgtOk then
    -- err_unlock: get_pages_sgt failed, nothing mapped
    ⟨sgtRet, none, false, [], []⟩
  else
    let out := createBoLoop mapRet argsSize (secondaryCores numCores) argsSize [] []
    if out.ret = 0 then
      ⟨0, some ⟨out.boSize, 0, 0⟩, true, out.mapped, out.synced⟩
    else
      -- err_unlock: drm_gem_shmem_object_free unmaps core 0 and frees the
      -- backing pages, while out.mapped secondary mappings remain
      ⟨out.ret, none, false, out.mapped, out.synced⟩

/-- Whether the buffer is mapped in core `c`'s address space after a create
call: core 0 through the shmem sgt, other cores through their IOMMU domains. -/
def mappedOnCore (r : CreateBoResult) (c : Nat) : Bool :=
  if c = 0 then r.primaryMapped else r.mappedSecondary.contains c

/-- The residency invariant exactly as the specification states it, over an
abstract job predicate: `jobRefs c = true` means some job queued or
dispatched on core `c` references the buffer.  The spec demands the buffer be
mapped on core `c` if and only if such a job exists (for cores of the
device). -/
def mappedIffReferenced (r : CreateBoResult) (numCores : Nat)
    (jobRefs : Nat → Bool) : Prop :=
  ∀ c, c < numCores → (mappedOnCore r c = true ↔ jobRefs c = true)

example :
    rocket_ioctl_create_bo 3 4096 0 true 0 (fun _ => 4096) =
      ⟨0, some ⟨4096, 0, 0⟩, true, [1, 2], [1, 2]⟩ := by decide

example :
    rocket_ioctl_create_bo 3 4096 0 true 0 (fun c => if c = 1 then 4096 else -5) =
      ⟨-ENOMEM, none, false, [1], [1]⟩ := by decide

/-! ## Buffer free (`rocket_gem_bo_free`, rocket_gem.c) -/

/-- Observable events of the buffer release path, in program order. -/
inductive FreeEvent where
  | iommuUnmap (core : Nat) (unmapped : Nat)
  | warnSizeMismatch (core : Nat)
  | shmemFree
  deriving DecidableEq, Repr

/-- Embedding of the secondary-core loop of `rocket_gem_bo_free`: for each
core > 0, `iommu_unmap` is called for the object's dma address and size, and
`drm_WARN_ON(obj->dev, unmapped != bo->size)` logs a warning whenever the
unmapped size differs from the recorded size.  `unmapRet c` is the size
`iommu_unmap` reports for core `c`. -/
def freeLoop (boSize : Nat) (unmapRet : Nat → Nat) : List Nat → List FreeEvent
  | [] => []
  | c :: rest =>
    .iommuUnmap c (unmapRet c) ::
      ((if unmapRet c ≠ boSize then [.warnSizeMismatch c] else []) ++
        freeLoop boSize unmapRet rest)

/-- Embedding of `rocket_gem_bo_free`, the `.free` callback run when the
object's reference count reaches zero: under `rdev->iommu_lock` it unmaps the
object from every secondary core's IOMMU (warning on any size mismatch), and
only afterwards calls `drm_gem_shmem_free`, which removes the core-0 mapping
and frees the backing memory. -/
def rocket_gem_bo_free (numCores boSize : Nat) (unmapRet : Nat → Nat) :
    List FreeEvent :=
  freeLoop boSize unmapRet (secondaryCores numCores) ++ [.shmemFree]

example :
    rocket_gem_bo_free 3 4096 (fun c => if c = 2 then 100 else 4096) =
      [.iommuUnmap 1 4096, .iommuUnmap 2 100, .warnSizeMismatch 2, .shmemFree] := by
  decide

/-! ## PREP_BO / FINI_BO ioctls (`rocket_ioctl_prep_bo`, `rocket_ioctl_fini_bo`)

The mutable state the two ioctls touch is the calling file's handle table
(`drm_gem_object_lookup`) holding the rocket objects; `numCores` is
`rdev->num_cores`. -/

/-- Device state seen by the PREP_BO/FINI_BO ioctls: the handle table of the
calling drm_file and the core count of the device. -/
structure DeviceState where
  numCores : Nat
  handles : List (Nat × RocketGemObject)
  deriving DecidableEq, Repr

/-- Embedding of `drm_gem_object_lookup(file, handle)` on the file's handle
table: the object the handle currently names, if any. -/
def lookupHandle (st : DeviceState) (h : Nat) : Option RocketGemObject :=
  (st.handles.find? (fun p => p.fst == h)).map Prod.snd

/-- Write back an updated object under an existing handle. -/
def setHandle (st : DeviceState) (h : Nat) (o : RocketGemObject) : DeviceState :=
  ⟨st.numCores, st.handles.map (fun p => if p.fst == h then (p.fst, o) else p)⟩

/-- Observable events of the prepare/finish CPU-access paths, in program
order. -/
inductive SyncEvent where
  | syncForCpu (core : Nat) (dir : DmaDataDirection)
  | syncForDevice (core : Nat) (dir : DmaDataDirection)
  | warnNoPrep
  deriving DecidableEq, Repr

/-- Result of one PREP_BO or FINI_BO ioctl: the returned code, the state
afterwards, and the cache-synchronization / warning events emitted. -/
structure IoctlOut where
  ret : Int
  st : DeviceState
  events : List SyncEvent
  deriving DecidableEq, Repr

/-- Embedding of `rocket_ioctl_prep_bo`.  `timeout` is the jiffies value
`drm_timeout_abs_to_jiffies(args->timeout_ns)` produced, and `waitRet` is the
return of the external `dma_resv_wait_timeout(gem_obj->resv, usage, true,
timeout)`: positive remaining jiffies when the reservation fences signaled in
time, 0 when they did not, negative errno when the wait itself failed.  The C
code rejects op bits outside READ|WRITE with -EINVAL, returns -ENOENT on a
failed lookup, maps a zero `waitRet` to -ETIMEDOUT (nonzero timeout) or
-EBUSY (zero timeout), then unconditionally syncs the sgtable for the CPU on
every secondary core with `rocket_op_to_dma_dir(args->op)` and records
`args->op` as `last_cpu_prep_op`. -/
def rocket_ioctl_prep_bo (st : DeviceState) (handle op timeout : Nat)
    (waitRet : Int) : IoctlOut :=
  if op &&& (ROCKET_PREP_READ ||| ROCKET_PREP_WRITE) ≠ op then
    -- args->op & ~(ROCKET_PREP_READ | ROCKET_PREP_WRITE) is nonzero
    ⟨-EINVAL, st, []⟩
  else
    match lookupHandle st handle with
    | none => ⟨-ENOENT, st, []⟩
    | some obj =>
      let ret0 := waitRet
      let ret1 := if ret0 = 0 then (if timeout ≠ 0 then -ETIMEDOUT else -EBUSY) else ret0
      let dir := rocket_op_to_dma_dir op
      let evs := (secondaryCores st.numCores).map (fun c => SyncEvent.syncForCpu c dir)
      ⟨ret1, setHandle st handle { obj with last_cpu_prep_op := op }, evs⟩

/-- Embedding of `rocket_ioctl_fini_bo`: -ENOENT on a failed lookup, a
`WARN_ON` when `last_cpu_prep_op == 0`, then for every secondary core a
`dma_sync_sgtable_for_device` with the direction derived from the recorded
`last_cpu_prep_op`, which is then cleared; the ioctl returns 0 regardless of
the warning. -/
def rocket_ioctl_fini_bo (st : DeviceState) (handle : Nat) : IoctlOut :=
  match lookupHandle st handle with
  | none => ⟨-ENOENT, st, []⟩
  | some obj =>
    let warn := if obj.last_cpu_prep_op = 0 then [SyncEvent.warnNoPrep] else []
    let dir := rocket_op_to_dma_dir obj.last_cpu_prep_op
    let evs := (secondaryCores st.numCores).map (fun c => SyncEvent.syncForDevice c dir)
    ⟨0, setHandle st handle { obj with last_cpu_prep_op := 0 }, warn ++ evs⟩

example :
    rocket_ioctl_prep_bo ⟨3, [(7, ⟨4096, 0, 0⟩)]⟩ 7 1 100 50 =
      ⟨50, ⟨3, [(7, ⟨4096, 0, 1⟩)]⟩,
        [.syncForCpu 1 .fromDevice, .syncForCpu 2 .fromDevice]⟩ := by decide

example :
    rocket_ioctl_fini_bo ⟨3, [(7, ⟨4096, 0, 2⟩)]⟩ 7 =
      ⟨0, ⟨3, [(7, ⟨4096, 0, 0⟩)]⟩,
        [.syncForDevice 1 .toDevice, .syncForDevice 2 .toDevice]⟩ := by decide

example :
    rocket_ioctl_fini_bo ⟨2, [(7, ⟨4096, 0, 0⟩)]⟩ 7 =
      ⟨0, ⟨2, [(7, ⟨4096, 0, 0⟩)]⟩, [.warnNoPrep, .syncForDevice 1 .bidirectional]⟩ := by
  decide

/-! ## Runtime suspend (`rocket_device_runtime_suspend`)

Embedding of the per-core, component-based version of
`rocket_device_runtime_suspend`: the `dev` argument identifies exactly one
core; the loop skips every other core, checks that core's idleness, and only
then disables its clocks (plus the device-wide pclk/clk_npu for core 0).
`rocket_job_is_idle` itself lives in rocket_job.c, which is not among the
sources; it is modelled from the spec below. -/

/-- Clock and scheduler state relevant to runtime power management.
`inFlightJob c` is core `c`'s `in_flight_job` slot. -/
structure PmDeviceState where
  numCores : Nat
  inFlightJob : Nat → Option Nat
  aClkOn : Nat → Bool
  hClkOn : Nat → Bool
  pclkOn : Bool
  npuClkOn : Bool

/-- Observable actions of the runtime-suspend path, in program order.  The
`hwWait` constructor stands for blocking on a hardware operation (register
poll, fence wait); the suspend path never emits it. -/
inductive PmEvent where
  | idleCheck (core : Nat)
  | coreClkDisable (core : Nat)
  | devClkDisable
  | hwWait
  deriving DecidableEq, Repr

/-- Modelled from the spec: `rocket_job_is_idle` for one core (rocket_job.c
is not among the sources).  The spec's idleness check is "core has no
in-flight job". -/
def rocket_job_is_idle (st : PmDeviceState) (core : Nat) : Bool :=
  (st.inFlightJob core).isNone

/-- Embedding of `rocket_device_runtime_suspend` for the core `devCore` that
`dev` identifies: if that core is not idle, return -EBUSY having changed
nothing; otherwise disable its a/h clocks and, for core 0, also the
device-wide pclk and clk_npu, and return 0. -/
def rocket_device_runtime_suspend (st : PmDeviceState) (devCore : Nat) :
    Int × PmDeviceState × List PmEvent :=
  if devCore < st.numCores then
    if ¬ rocket_job_is_idle st devCore then
      (-EBUSY, st, [.idleCheck devCore])
    else
      let st2 : PmDeviceState :=
        { st with
          aClkOn := fun c => if c = devCore then false else st.aClkOn c
          hClkOn := fun c => if c = devCore then false else st.hClkOn c
          pclkOn := if devCore = 0 then false else st.pclkOn
          npuClkOn := if devCore = 0 then false else st.npuClkOn }
      (0, st2, [.idleCheck devCore, .coreClkDisable devCore] ++
        (if devCore = 0 then [.devClkDisable] else []))
  else
    -- dev matches no core: the loop body never runs
    (0, st, [])

/-! ## The per-core in-flight slot (`rocket_core.h`, §4.4 of the spec)

Modelled from the spec: rocket_job.c, which manipulates
`rocket_core::in_flight_job` under `rocket_core::job_lock`, is not among the
sources; only the declaration of the slot and its dedicated spinlock is
(rocket_core.h).  The spec says dispatch runs on both the submission context
and the hardware-interrupt context, that the occupied check-and-set is atomic
under the per-core lock, and that the interrupt handler clears the slot on
completion.  The model below is an interleaving transition system over those
two execution contexts. -/

/-- The two execution contexts that touch a core's in-flight slot. -/
inductive ExecCtx where
  | submission
  | irq
  deriving DecidableEq, Repr

/-- Where one execution context stands with respect to the core's job_lock. -/
inductive CtxPhase where
  | outside
  | acquired
  | sawEmpty
  deriving DecidableEq, Repr

/-- Pointwise update of a phase assignment. -/
def setPhase (f : ExecCtx → CtxPhase) (c : ExecCtx) (v : CtxPhase) :
    ExecCtx → CtxPhase :=
  fun x => if x = c then v else f x

/-- State of one core's scheduling hot path: who holds `job_lock`, the
`in_flight_job` slot, the jobs the hardware has accepted and not yet
completed, and each context's position in the locked region. -/
structure CoreSchedState where
  lockHolder : Option ExecCtx
  inFlightJob : Option Nat
  hwAccepted : List Nat
  phase : ExecCtx → CtxPhase

/-- Initial state of a core: lock free, slot empty, nothing on the
hardware. -/
def initCoreSched : CoreSchedState :=
  ⟨none, none, [], fun _ => .outside⟩

/-- One atomic step of the dispatch/completion protocol.  Acquiring the
spinlock, inspecting the slot, writing the job to the command registers plus
setting the slot, and the interrupt handler's clear of the slot are each one
step; the slot is only ever read or written with the lock held, as in the
spec's dispatch algorithm. -/
inductive SchedStep : CoreSchedState → CoreSchedState → Prop where
  | acquire (s : CoreSchedState) (c : ExecCtx)
      (hl : s.lockHolder = none) (hp : s.phase c = .outside) :
      SchedStep s { s with lockHolder := some c, phase := setPhase s.phase c .acquired }
  | checkEmpty (s : CoreSchedState) (c : ExecCtx)
      (hl : s.lockHolder = some c) (hp : s.phase c = .acquired)
      (hs : s.inFlightJob = none) :
      SchedStep s { s with phase := setPhase s.phase c .sawEmpty }
  | checkBusy (s : CoreSchedState) (c : ExecCtx) (j : Nat)
      (hl : s.lockHolder = some c) (hp : s.phase c = .acquired)
      (hs : s.inFlightJob = some j) :
      SchedStep s { s with lockHolder := none, phase := setPhase s.phase c .outside }
  | dispatch (s : CoreSchedState) (c : ExecCtx) (j : Nat)
      (hl : s.lockHolder = some c) (hp : s.phase c = .sawEmpty) :
      SchedStep s { s with
        lockHolder := none
        inFlightJob := some j
        hwAccepted := j :: s.hwAccepted
        phase := setPhase s.phase c .outside }
  | complete (s : CoreSchedState) (j : Nat)
      (hl : s.lockHolder = some .irq) (hp : s.phase .irq = .acquired)
      (hs : s.inFlightJob = some j) :
      SchedStep s { s with
        lockHolder := none
        inFlightJob := none
        hwAccepted := s.hwAccepted.erase j
        phase := setPhase s.phase .irq .outside }

/-- States reachable from the initial core state by interleaved steps of the
two contexts. -/
inductive SchedReachable : CoreSchedState → Prop where
  | init : SchedReachable initCoreSched
  | step {s s' : CoreSchedState} :
      SchedReachable s → SchedStep s s' → SchedReachable s'

/-- The jobs an in-flight slot holds, as a list. -/
def slotList : Option Nat → List Nat
  | none => []
  | some j => [j]

/-- Inductive invariant of the core scheduling protocol: a context inside the
locked region holds the lock, a context that saw the slot empty still sees it
empty (nobody else can change it while the lock is held), and the set of jobs
accepted by the hardware coincides with the slot's content. -/
def SchedInv (s : CoreSchedState) : Prop :=
  (∀ c, s.phase c ≠ .outside → s.lockHolder = some c) ∧
  (∀ c, s.phase c = .sawEmpty → s.inFlightJob = none) ∧
  s.hwAccepted = slotList s.inFlightJob

theorem schedInv_init : SchedInv initCoreSched := by
  refine ⟨?_, ?_, rfl⟩ <;> intro c h <;> simp [initCoreSched] at h

theorem schedInv_step {s s' : CoreSchedState}
    (hinv : SchedInv s) (hstep : SchedStep s s') : SchedInv s' := by
  obtain ⟨h1, h2, h3⟩ := hinv
  cases hstep with
  | acquire c hl hp =>
    refine ⟨?_, ?_, h3⟩
    · intro c' hc'
      rcases eq_or_ne c' c with hcc | hcc
      · subst hcc; rfl
      · have hold : s.phase c' ≠ .outside := by simpa [setPhase, hcc] using hc'
        have := h1 c' hold
        rw [hl] at this
        exact absurd this (by simp)
    · intro c' hc'
      rcases eq_or_ne c' c with hcc | hcc
      · subst hcc; simp [setPhase] at hc'
      · exact h2 c' (by simpa [setPhase, hcc] using hc')
  | checkEmpty c hl hp hs =>
    refine ⟨?_, ?_, h3⟩
    · intro c' hc'
      rcases eq_or_ne c' c with hcc | hcc
      · subst hcc; exact hl
      · exact h1 c' (by simpa [setPhase, hcc] using hc')
    · intro c' _
      exact hs
  | checkBusy c j hl hp hs =>
    refine ⟨?_, ?_, h3⟩
    · intro c' hc'
      exfalso
      rcases eq_or_ne c' c with hcc | hcc
      · subst hcc; simp [setPhase] at hc'
      · have := h1 c' (by simpa [setPhase, hcc] using hc')
        rw [hl] at this
        exact hcc (by injection this with h; exact h.symm)
    · intro c' hc'
      exfalso
      rcases eq_or_ne c' c with hcc | hcc
      · subst hcc; simp [setPhase] at hc'
      · have hsaw : s.phase c' = .sawEmpty := by simpa [setPhase, hcc] using hc'
        have := h1 c' (by simp [hsaw])
        rw [hl] at this
        exact hcc (by injection this with h; exact h.symm)
  | dispatch c j hl hp =>
    have hslot : s.inFlightJob = none := h2 c hp
    refine ⟨?_, ?_, ?_⟩
    · intro c' hc'
      exfalso
      rcases eq_or_ne c' c with hcc | hcc
      · subst hcc; simp [setPhase] at hc'
      · have := h1 c' (by simpa [setPhase, hcc] using hc')
        rw [hl] at this
        exact hcc (by injection this with h; exact h.symm)
    · intro c' hc'
      exfalso
      rcases eq_or_ne c' c with hcc | hcc
      · subst hcc; simp [setPhase] at hc'
      · have hsaw : s.phase c' = .sawEmpty := by simpa [setPhase, hcc] using hc'
        have := h1 c' (by simp [hsaw])
        rw [hl] at this
        exact hcc (by injection this with h; exact h.symm)
    · show j :: s.hwAccepted = slotList (some j)
      rw [h3, hslot]
      rfl
  | complete j hl hp hs =>
    refine ⟨?_, ?_, ?_⟩
    · intro c' hc'
      exfalso
      rcases eq_or_ne c' ExecCtx.irq with hcc | hcc
      · subst hcc; simp [setPhase] at hc'
      · have := h1 c' (by simpa [setPhase, hcc] using hc')
        rw [hl] at this
        exact hcc (by injection this with h; exact h.symm)
    · intro c' hc'
      exfalso
      rcases eq_or_ne c' ExecCtx.irq with hcc | hcc
      · subst hcc; simp [setPhase] at hc'
      · have hsaw : s.phase c' = .sawEmpty := by simpa [setPhase, hcc] using hc'
        have := h1 c' (by simp [hsaw])
        rw [hl] at this
        exact hcc (by injection this with h; exact h.symm)
    · show s.hwAccepted.erase j = slotList none
      rw [h3, hs]
      simp [slotList]

theorem schedInv_reachable {s : CoreSchedState} (h : SchedReachable s) :
    SchedInv s := by
  induction h with
  | init => exact schedInv_init
  | step _ hstep ih => exact schedInv_step ih hstep

/-! ## Helper lemmas -/

theorem secondaryCores_eq (n : Nat) : secondaryCores (n + 1) = List.range' 1 n := by
  unfold secondaryCores
  rw [List.range_eq_range' (n + 1)]
  have h : List.range' 0 (n + 1) = List.range' 0 1 ++ List.range' 1 n :=
    (List.range'_append 0 1 n 1).symm
  rw [h]
  rfl

theorem mem_secondaryCores {c n : Nat} : c ∈ secondaryCores n ↔ 1 ≤ c ∧ c < n := by
  cases n with
  | zero => simp [secondaryCores]
  | succ k =>
    rw [secondaryCores_eq, List.mem_range'_1]
    omega

theorem createBoLoop_success (mapRet : Nat → Int) (requestSize : Nat) :
    ∀ (cores : List Nat) (boSize : Nat) (mapped synced : List Nat),
      (∀ c ∈ cores, (requestSize : Int) ≤ mapRet c) →
      (createBoLoop mapRet requestSize cores boSize mapped synced).ret = 0 ∧
      (createBoLoop mapRet requestSize cores boSize mapped synced).mapped =
        mapped ++ cores ∧
      (createBoLoop mapRet requestSize cores boSize mapped synced).synced =
        synced ++ cores := by
  intro cores
  induction cores with
  | nil =>
    intro boSize mapped synced _
    simp [createBoLoop]
  | cons core rest ih =>
    intro boSize mapped synced hall
    have hcore : (requestSize : Int) ≤ mapRet core := hall core (by simp)
    have hnn : (0 : Int) ≤ mapRet core := le_trans (Int.natCast_nonneg _) hcore
    have hnot : ¬(mapRet core < 0 ∨ mapRet core < (requestSize : Int)) := by
      push_neg
      exact ⟨hnn, hcore⟩
    obtain ⟨h1, h2, h3⟩ := ih (mapRet core).toNat (mapped ++ [core]) (synced ++ [core])
      (fun c hc => hall c (List.mem_cons_of_mem _ hc))
    simp only [createBoLoop, if_neg hnot]
    refine ⟨h1, ?_, ?_⟩
    · rw [h2]
      simp
    · rw [h3]
      simp

theorem createBoLoop_fail (mapRet : Nat → Int) (requestSize : Nat) (f : Nat)
    (rest : List Nat)
    (hf : mapRet f < 0 ∨ mapRet f < (requestSize : Int)) :
    ∀ (pre : List Nat) (boSize : Nat) (mapped synced : List Nat),
      (∀ c ∈ pre, (requestSize : Int) ≤ mapRet c) →
      (createBoLoop mapRet requestSize (pre ++ f :: rest) boSize mapped synced).ret =
        -ENOMEM ∧
      (createBoLoop mapRet requestSize (pre ++ f :: rest) boSize mapped synced).mapped =
        mapped ++ pre ++ (if 0 ≤ mapRet f then [f] else []) := by
  intro pre
  induction pre with
  | nil =>
    intro boSize mapped synced _
    simp only [List.nil_append, createBoLoop, if_pos hf]
    simp
  | cons core rest' ih =>
    intro boSize mapped synced hall
    have hcore : (requestSize : Int) ≤ mapRet core := hall core (by simp)
    have hnn : (0 : Int) ≤ mapRet core := le_trans (Int.natCast_nonneg _) hcore
    have hnot : ¬(mapRet core < 0 ∨ mapRet core < (requestSize : Int)) := by
      push_neg
      exact ⟨hnn, hcore⟩
    obtain ⟨h1, h2⟩ := ih (mapRet core).toNat (mapped ++ [core]) (synced ++ [core])
      (fun c hc => hall c (List.mem_cons_of_mem _ hc))
    simp only [List.cons_append, List.append_eq, createBoLoop, if_neg hnot]
    refine ⟨h1, ?_⟩
    rw [h2]
    simp

theorem freeLoop_unmap_mem (boSize : Nat) (unmapRet : Nat → Nat) :
    ∀ (l : List Nat), ∀ c ∈ l,
      FreeEvent.iommuUnmap c (unmapRet c) ∈ freeLoop boSize unmapRet l := by
  intro l
  induction l with
  | nil => intro c hc; simp at hc
  | cons a rest ih =>
    intro c hc
    rcases List.mem_cons.mp hc with h | h
    · subst h
      simp [freeLoop]
    · simp only [freeLoop, List.mem_cons, List.mem_append]
      exact Or.inr (Or.inr (ih c h))

theorem freeLoop_warn_mem (boSize : Nat) (unmapRet : Nat → Nat) :
    ∀ (l : List Nat), ∀ c ∈ l, unmapRet c ≠ boSize →
      FreeEvent.warnSizeMismatch c ∈ freeLoop boSize unmapRet l := by
  intro l
  induction l with
  | nil => intro c hc; simp at hc
  | cons a rest ih =>
    intro c hc hne
    rcases List.mem_cons.mp hc with h | h
    · subst h
      simp [freeLoop, if_pos hne]
    · simp only [freeLoop, List.mem_cons, List.mem_append]
      exact Or.inr (Or.inr (ih c h hne))

theorem find?_map_setEntry (hdl : Nat) (o : RocketGemObject) :
    ∀ (l : List (Nat × RocketGemObject)),
      (l.find? (fun p => p.fst == hdl)).isSome = true →
      (l.map (fun p => if p.fst == hdl then (p.fst, o) else p)).find?
          (fun p => p.fst == hdl) = some (hdl, o) := by
  intro l
  induction l with
  | nil => intro h; simp at h
  | cons p rest ih =>
    intro hsome
    by_cases hp : p.fst = hdl
    · simp [List.find?_cons, hp]
    · have hpb : (p.fst == hdl) = false := by simp [hp]
      simp only [List.find?_cons, hpb, cond_false] at hsome
      simp only [List.map_cons, List.find?_cons, hpb, Bool.false_eq_true, if_false,
        cond_false]
      exact ih hsome

theorem lookupHandle_setHandle_same (st : DeviceState) (hdl : Nat)
    (o obj : RocketGemObject) (hl : lookupHandle st hdl = some obj) :
    lookupHandle (setHandle st hdl o) hdl = some o := by
  unfold lookupHandle at hl ⊢
  unfold setHandle
  have hsome : (st.handles.find? (fun p => p.fst == hdl)).isSome = true := by
    cases hfind : st.handles.find? (fun p => p.fst == hdl) with
    | none => rw [hfind] at hl; simp at hl
    | some q => simp [hfind]
  rw [find?_map_setEntry hdl o st.handles hsome]
  rfl

/-! ## Claim theorems -/

/-- C1, counterexample: the claimed residency invariant — "a buffer is mapped
into a core's address space iff a job queued or dispatched on that core
references it" — fails immediately after a successful CreateBuffer on a
3-core device: the buffer is mapped on secondary core 1 although no job
anywhere references it, so mappings are not added lazily at the first
cross-core reference. -/
theorem c1_claim_counterexample :
    ¬ mappedIffReferenced (rocket_ioctl_create_bo 3 4096 0 true 0 (fun _ => 4096)) 3
        (fun _ => false) := by
  intro h
  have h1 : (false : Bool) = true := (h 1 (by decide)).mp (by decide)
  exact Bool.noConfusion h1

/-- C1, amended: core mappings are eager, not lazy, and independent of jobs —
whenever buffer creation succeeds (the shmem/handle steps succeed and every
secondary-core `iommu_map_sgtable` maps at least the requested size), the
buffer is mapped into the address space of every core of the device, from
creation on, regardless of which jobs reference it. -/
theorem c1_amended_eager_mapping (numCores argsSize : Nat) (mapRet : Nat → Int)
    (hmap : ∀ c ∈ secondaryCores numCores, (argsSize : Int) ≤ mapRet c) :
    (rocket_ioctl_create_bo numCores argsSize 0 true 0 mapRet).ret = 0 ∧
    ∀ c, c < numCores →
      mappedOnCore (rocket_ioctl_create_bo numCores argsSize 0 true 0 mapRet) c =
        true := by
  obtain ⟨h1, h2, _⟩ :=
    createBoLoop_success mapRet argsSize (secondaryCores numCores) argsSize [] [] hmap
  simp only [rocket_ioctl_create_bo]
  rw [if_neg (by simp)]
  rw [if_neg (by simp)]
  rw [if_pos h1]
  refine ⟨rfl, ?_⟩
  intro c hc
  unfold mappedOnCore
  by_cases hc0 : c = 0
  · simp [hc0]
  · have hmem : c ∈ secondaryCores numCores := mem_secondaryCores.mpr ⟨by omega, hc⟩
    simp only [if_neg hc0]
    simp only [h2, List.nil_append]
    exact List.elem_eq_true_of_mem hmem

/-- C1 witness: on a concrete 3-core device with all secondary maps
succeeding, creation returns 0 and the buffer is mapped on cores 0, 1, 2. -/
theorem c1_amended_eager_mapping_witness :
    (rocket_ioctl_create_bo 3 4096 0 true 0 (fun _ => 4096)).ret = 0 ∧
    ∀ c, c < 3 →
      mappedOnCore (rocket_ioctl_create_bo 3 4096 0 true 0 (fun _ => 4096)) c =
        true :=
  c1_amended_eager_mapping 3 4096 (fun _ => 4096) (by decide)

/-- C2, counterexample: the claim says read together with write selects the
bidirectional direction, but `rocket_op_to_dma_dir` tests the READ bit first,
so op = ROCKET_PREP_READ|ROCKET_PREP_WRITE selects DMA_FROM_DEVICE, and a
PREP_BO ioctl with that op syncs every secondary core in the device-to-CPU
direction, not bidirectionally. -/
theorem c2_claim_counterexample :
    rocket_op_to_dma_dir (ROCKET_PREP_READ ||| ROCKET_PREP_WRITE) =
        DmaDataDirection.fromDevice ∧
    spec_dma_dir (ROCKET_PREP_READ ||| ROCKET_PREP_WRITE) =
        DmaDataDirection.bidirectional ∧
    rocket_op_to_dma_dir (ROCKET_PREP_READ ||| ROCKET_PREP_WRITE) ≠
        spec_dma_dir (ROCKET_PREP_READ ||| ROCKET_PREP_WRITE) ∧
    (rocket_ioctl_prep_bo ⟨2, [(0, ⟨4096, 0, 0⟩)]⟩ 0
        (ROCKET_PREP_READ ||| ROCKET_PREP_WRITE) 0 1).events =
      [SyncEvent.syncForCpu 1 DmaDataDirection.fromDevice] := by
  decide

/-- C2, amended: on a valid handle, PrepareBuffer applies one CPU-visibility
sync per secondary core whose direction is selected from the mode as the code
does: any mode containing read (alone or together with write) maps to the
device-to-CPU direction, write alone maps to the CPU-to-device direction, and
an empty mode maps to the bidirectional direction. -/
theorem c2_amended_dir_selection (st : DeviceState) (handle op timeout : Nat)
    (waitRet : Int) (obj : RocketGemObject)
    (hop : op &&& (ROCKET_PREP_READ ||| ROCKET_PREP_WRITE) = op)
    (hl : lookupHandle st handle = some obj) :
    (rocket_ioctl_prep_bo st handle op timeout waitRet).events =
      (secondaryCores st.numCores).map
        (fun c => SyncEvent.syncForCpu c (rocket_op_to_dma_dir op)) ∧
    (op &&& ROCKET_PREP_READ ≠ 0 →
      rocket_op_to_dma_dir op = DmaDataDirection.fromDevice) ∧
    (op &&& ROCKET_PREP_READ = 0 → op &&& ROCKET_PREP_WRITE ≠ 0 →
      rocket_op_to_dma_dir op = DmaDataDirection.toDevice) ∧
    (op &&& ROCKET_PREP_READ = 0 → op &&& ROCKET_PREP_WRITE = 0 →
      rocket_op_to_dma_dir op = DmaDataDirection.bidirectional) := by
  refine ⟨?_, ?_, ?_, ?_⟩
  · unfold rocket_ioctl_prep_bo
    rw [if_neg (by simp [hop])]
    rw [hl]
  · intro h
    simp [rocket_op_to_dma_dir, h]
  · intro h1 h2
    simp [rocket_op_to_dma_dir, h1, h2]
  · intro h1 h2
    simp [rocket_op_to_dma_dir, h1, h2]

/-- C2 witness: concrete instance with op = ROCKET_PREP_WRITE on a 3-core
device. -/
theorem c2_amended_dir_selection_witness :
    (rocket_ioctl_prep_bo ⟨3, [(7, ⟨4096, 0, 0⟩)]⟩ 7 ROCKET_PREP_WRITE 0 1).events =
      (secondaryCores 3).map
        (fun c => SyncEvent.syncForCpu c (rocket_op_to_dma_dir ROCKET_PREP_WRITE)) ∧
    (ROCKET_PREP_WRITE &&& ROCKET_PREP_READ ≠ 0 →
      rocket_op_to_dma_dir ROCKET_PREP_WRITE = DmaDataDirection.fromDevice) ∧
    (ROCKET_PREP_WRITE &&& ROCKET_PREP_READ = 0 →
      ROCKET_PREP_WRITE &&& ROCKET_PREP_WRITE ≠ 0 →
      rocket_op_to_dma_dir ROCKET_PREP_WRITE = DmaDataDirection.toDevice) ∧
    (ROCKET_PREP_WRITE &&& ROCKET_PREP_READ = 0 →
      ROCKET_PREP_WRITE &&& ROCKET_PREP_WRITE = 0 →
      rocket_op_to_dma_dir ROCKET_PREP_WRITE = DmaDataDirection.bidirectional) :=
  c2_amended_dir_selection ⟨3, [(7, ⟨4096, 0, 0⟩)]⟩ 7 ROCKET_PREP_WRITE 0 1
    ⟨4096, 0, 0⟩ (by decide) (by decide)

/-- C3, counterexample: with 3 cores, a request of 4096 bytes, core 1 mapping
successfully and core 2 failing with an errno, creation fails (with -ENOMEM,
not a distinct MapFailed) and core 1's IOMMU mapping is left in place — the
already-mapped cores are not unmapped again, so the rollback the claim
describes does not happen. -/
theorem c3_claim_counterexample :
    (rocket_ioctl_create_bo 3 4096 0 true 0
        (fun c => if c = 1 then 4096 else -5)).ret = -ENOMEM ∧
    (rocket_ioctl_create_bo 3 4096 0 true 0
        (fun c => if c = 1 then 4096 else -5)).mappedSecondary = [1] := by
  decide

/-- C3, amended: when mapping the buffer into the secondary cores' IOMMU
domains fails at some core (error return, or fewer bytes mapped than
requested), the call fails with -ENOMEM, the buffer object is freed and the
primary-core mapping removed, but the secondary cores already mapped during
that same call keep their IOMMU mappings (no unmap rollback is performed). -/
theorem c3_amended_partial_failure (numCores argsSize : Nat) (mapRet : Nat → Int)
    (pre : List Nat) (f : Nat) (rest : List Nat)
    (hsplit : secondaryCores numCores = pre ++ f :: rest)
    (hpre : ∀ c ∈ pre, (argsSize : Int) ≤ mapRet c)
    (hf : mapRet f < 0 ∨ mapRet f < (argsSize : Int)) :
    (rocket_ioctl_create_bo numCores argsSize 0 true 0 mapRet).ret = -ENOMEM ∧
    (rocket_ioctl_create_bo numCores argsSize 0 true 0 mapRet).bo = none ∧
    (rocket_ioctl_create_bo numCores argsSize 0 true 0 mapRet).primaryMapped =
      false ∧
    (rocket_ioctl_create_bo numCores argsSize 0 true 0 mapRet).mappedSecondary =
      pre ++ (if 0 ≤ mapRet f then [f] else []) := by
  obtain ⟨h1, h2⟩ := createBoLoop_fail mapRet argsSize f rest hf pre argsSize [] []
    hpre
  simp only [rocket_ioctl_create_bo]
  rw [if_neg (by simp)]
  rw [if_neg (by simp)]
  rw [hsplit]
  rw [if_neg (by rw [h1]; decide)]
  refine ⟨h1, rfl, rfl, ?_⟩
  rw [h2]
  simp

/-- C3 witness: the concrete failing run of the counterexample, read through
the amended statement. -/
theorem c3_amended_partial_failure_witness :
    (rocket_ioctl_create_bo 3 4096 0 true 0
        (fun c => if c = 1 then 4096 else -5)).ret = -ENOMEM ∧
    (rocket_ioctl_create_bo 3 4096 0 true 0
        (fun c => if c = 1 then 4096 else -5)).bo = none ∧
    (rocket_ioctl_create_bo 3 4096 0 true 0
        (fun c => if c = 1 then 4096 else -5)).primaryMapped = false ∧
    (rocket_ioctl_create_bo 3 4096 0 true 0
        (fun c => if c = 1 then 4096 else -5)).mappedSecondary =
      [1] ++ (if (0 : Int) ≤ (fun c : Nat => if c = 1 then (4096 : Int) else -5) 2
        then [2] else []) :=
  c3_amended_partial_failure 3 4096 (fun c => if c = 1 then 4096 else -5)
    [1] 2 [] (by decide) (by decide) (by decide)

/-- C4: in every reachable state of the core's dispatch/completion protocol —
with the interrupt-context completion path and the submission-context
dispatch path interleaving freely, and the occupied check-and-set performed
under the per-core job_lock — the hardware holds at most one accepted job,
that job is exactly the one in the in-flight slot, and the lock-protected
region is mutually exclusive between the two contexts. -/
theorem c4_in_flight_slot_exclusive {s : CoreSchedState}
    (h : SchedReachable s) :
    s.hwAccepted = slotList s.inFlightJob ∧
    s.hwAccepted.length ≤ 1 ∧
    (∀ c c', s.phase c ≠ CtxPhase.outside → s.phase c' ≠ CtxPhase.outside →
      c = c') := by
  obtain ⟨h1, _, h3⟩ := schedInv_reachable h
  refine ⟨h3, ?_, ?_⟩
  · rw [h3]
    cases s.inFlightJob <;> simp [slotList]
  · intro c c' hc hc'
    have e1 := h1 c hc
    have e2 := h1 c' hc'
    rw [e1] at e2
    exact Option.some.inj e2

/-- C4 witness: the property instantiated at the (reachable) initial core
state. -/
theorem c4_in_flight_slot_exclusive_witness :
    initCoreSched.hwAccepted = slotList initCoreSched.inFlightJob ∧
    initCoreSched.hwAccepted.length ≤ 1 ∧
    (∀ c c', initCoreSched.phase c ≠ CtxPhase.outside →
      initCoreSched.phase c' ≠ CtxPhase.outside → c = c') :=
  c4_in_flight_slot_exclusive SchedReachable.init

/-- C5: on a valid handle and valid op, PREP_BO waits on the reservation
fences and returns exactly one of three distinct results — the positive
remaining time (Ok) when the fences signaled in time, -ETIMEDOUT when a
nonzero timeout elapsed unsignaled, -EBUSY when a zero-timeout check found
them unsignaled — and performs the per-secondary-core CPU sync in each of
the three cases. -/
theorem c5_prep_result_trichotomy (st : DeviceState) (handle op timeout : Nat)
    (waitRet : Int) (obj : RocketGemObject)
    (hop : op &&& (ROCKET_PREP_READ ||| ROCKET_PREP_WRITE) = op)
    (hl : lookupHandle st handle = some obj)
    (_hw : 0 ≤ waitRet) :
    (0 < waitRet →
      (rocket_ioctl_prep_bo st handle op timeout waitRet).ret = waitRet) ∧
    (waitRet = 0 → timeout ≠ 0 →
      (rocket_ioctl_prep_bo st handle op timeout waitRet).ret = -ETIMEDOUT) ∧
    (waitRet = 0 → timeout = 0 →
      (rocket_ioctl_prep_bo st handle op timeout waitRet).ret = -EBUSY) ∧
    (rocket_ioctl_prep_bo st handle op timeout waitRet).events =
      (secondaryCores st.numCores).map
        (fun c => SyncEvent.syncForCpu c (rocket_op_to_dma_dir op)) ∧
    (-ETIMEDOUT : Int) ≠ -EBUSY ∧ (-ETIMEDOUT : Int) < 0 ∧ (-EBUSY : Int) < 0 := by
  unfold rocket_ioctl_prep_bo
  rw [if_neg (by simp [hop])]
  rw [hl]
  refine ⟨?_, ?_, ?_, rfl, by decide, by decide, by decide⟩
  · intro hpos
    simp only
    rw [if_neg (by omega)]
  · intro hz ht
    simp only
    rw [if_pos hz, if_pos ht]
  · intro hz ht
    simp only
    rw [if_pos hz, if_neg (by simp [ht])]

/-- C5 witness: a zero-timeout check on an unsignaled reservation returns
-EBUSY and still syncs the secondary core. -/
theorem c5_prep_result_trichotomy_witness :
    ((0 : Int) < 0 →
      (rocket_ioctl_prep_bo ⟨2, [(7, ⟨4096, 0, 0⟩)]⟩ 7 ROCKET_PREP_READ 0 0).ret = 0) ∧
    ((0 : Int) = 0 → (0 : Nat) ≠ 0 →
      (rocket_ioctl_prep_bo ⟨2, [(7, ⟨4096, 0, 0⟩)]⟩ 7 ROCKET_PREP_READ 0 0).ret =
        -ETIMEDOUT) ∧
    ((0 : Int) = 0 → (0 : Nat) = 0 →
      (rocket_ioctl_prep_bo ⟨2, [(7, ⟨4096, 0, 0⟩)]⟩ 7 ROCKET_PREP_READ 0 0).ret =
        -EBUSY) ∧
    (rocket_ioctl_prep_bo ⟨2, [(7, ⟨4096, 0, 0⟩)]⟩ 7 ROCKET_PREP_READ 0 0).events =
      (secondaryCores 2).map
        (fun c => SyncEvent.syncForCpu c (rocket_op_to_dma_dir ROCKET_PREP_READ)) ∧
    (-ETIMEDOUT : Int) ≠ -EBUSY ∧ (-ETIMEDOUT : Int) < 0 ∧ (-EBUSY : Int) < 0 :=
  c5_prep_result_trichotomy ⟨2, [(7, ⟨4096, 0, 0⟩)]⟩ 7 ROCKET_PREP_READ 0 0
    ⟨4096, 0, 0⟩ (by decide) (by decide) (by decide)

/-- C6: when the reference count reaches zero, the free callback unmaps the
buffer from every secondary core strictly before `drm_gem_shmem_free`
releases the primary-core mapping and the backing memory (the shmem free is
the last event), and every secondary core whose unmapped size differs from
the recorded buffer size gets a logged size-mismatch warning. -/
theorem c6_free_order_and_warn (numCores boSize : Nat) (unmapRet : Nat → Nat) :
    (rocket_gem_bo_free numCores boSize unmapRet).getLast? =
      some FreeEvent.shmemFree ∧
    (∀ c ∈ secondaryCores numCores,
      FreeEvent.iommuUnmap c (unmapRet c) ∈
        (rocket_gem_bo_free numCores boSize unmapRet).dropLast) ∧
    (∀ c ∈ secondaryCores numCores, unmapRet c ≠ boSize →
      FreeEvent.warnSizeMismatch c ∈
        (rocket_gem_bo_free numCores boSize unmapRet).dropLast) := by
  unfold rocket_gem_bo_free
  refine ⟨by simp, ?_, ?_⟩
  · intro c hc
    rw [List.dropLast_concat]
    exact freeLoop_unmap_mem boSize unmapRet _ c hc
  · intro c hc hne
    rw [List.dropLast_concat]
    exact freeLoop_warn_mem boSize unmapRet _ c hc hne

/-- C6 witness: concrete 3-core free with a size mismatch on core 2. -/
theorem c6_free_order_and_warn_witness :
    (rocket_gem_bo_free 3 4096 (fun c => if c = 2 then 100 else 4096)).getLast? =
      some FreeEvent.shmemFree ∧
    (∀ c ∈ secondaryCores 3,
      FreeEvent.iommuUnmap c ((fun c : Nat => if c = 2 then 100 else 4096) c) ∈
        (rocket_gem_bo_free 3 4096 (fun c => if c = 2 then 100 else 4096)).dropLast) ∧
    (∀ c ∈ secondaryCores 3,
      (fun c : Nat => if c = 2 then 100 else 4096) c ≠ 4096 →
      FreeEvent.warnSizeMismatch c ∈
        (rocket_gem_bo_free 3 4096 (fun c => if c = 2 then 100 else 4096)).dropLast) :=
  c6_free_order_and_warn 3 4096 (fun c => if c = 2 then 100 else 4096)

/-- C7: a runtime-suspend request for a core with an in-flight job is refused
with -EBUSY and changes nothing (no clock is disabled and the state is
returned untouched); when the core is idle the suspend disables its clocks
(and the device-wide clocks for core 0) and succeeds; and in both cases the
suspend path performs no hardware wait — it blocks only on the idleness
check. -/
theorem c7_runtime_suspend_busy_or_idle (st : PmDeviceState) (devCore : Nat)
    (hc : devCore < st.numCores) :
    (st.inFlightJob devCore ≠ none →
      (rocket_device_runtime_suspend st devCore).1 = -EBUSY ∧
      (rocket_device_runtime_suspend st devCore).2.1 = st ∧
      (rocket_device_runtime_suspend st devCore).2.2 = [PmEvent.idleCheck devCore]) ∧
    (st.inFlightJob devCore = none →
      (rocket_device_runtime_suspend st devCore).1 = 0 ∧
      (rocket_device_runtime_suspend st devCore).2.1.aClkOn devCore = false ∧
      (rocket_device_runtime_suspend st devCore).2.1.hClkOn devCore = false ∧
      (rocket_device_runtime_suspend st devCore).2.1.inFlightJob = st.inFlightJob) ∧
    PmEvent.hwWait ∉ (rocket_device_runtime_suspend st devCore).2.2 := by
  unfold rocket_device_runtime_suspend
  rw [if_pos hc]
  by_cases hidle : rocket_job_is_idle st devCore
  · rw [if_neg (by simp [hidle])]
    have hnone : st.inFlightJob devCore = none := by
      unfold rocket_job_is_idle at hidle
      exact Option.isNone_iff_eq_none.mp hidle
    refine ⟨fun hne => absurd hnone hne, fun _ => ⟨rfl, by simp, by simp, rfl⟩, ?_⟩
    by_cases h0 : devCore = 0 <;> simp [h0]
  · rw [if_pos (by simp [hidle])]
    have hne : st.inFlightJob devCore ≠ none := by
      unfold rocket_job_is_idle at hidle
      simp only [Option.isNone_iff_eq_none] at hidle
      exact hidle
    exact ⟨fun _ => ⟨rfl, rfl, rfl⟩, fun hn => absurd hn hne, by simp⟩

/-- C7 witness: a 3-core device whose core 1 has job 5 in flight refuses
suspend for core 1, and the conjunction holds as the theorem states. -/
theorem c7_runtime_suspend_busy_or_idle_witness :
    ((⟨3, fun c => if c = 1 then some 5 else none, fun _ => true, fun _ => true,
        true, true⟩ : PmDeviceState).inFlightJob 1 ≠ none →
      (rocket_device_runtime_suspend
        ⟨3, fun c => if c = 1 then some 5 else none, fun _ => true, fun _ => true,
          true, true⟩ 1).1 = -EBUSY ∧
      (rocket_device_runtime_suspend
        ⟨3, fun c => if c = 1 then some 5 else none, fun _ => true, fun _ => true,
          true, true⟩ 1).2.1 =
        ⟨3, fun c => if c = 1 then some 5 else none, fun _ => true, fun _ => true,
          true, true⟩ ∧
      (rocket_device_runtime_suspend
        ⟨3, fun c => if c = 1 then some 5 else none, fun _ => true, fun _ => true,
          true, true⟩ 1).2.2 = [PmEvent.idleCheck 1]) ∧
    ((⟨3, fun c => if c = 1 then some 5 else none, fun _ => true, fun _ => true,
        true, true⟩ : PmDeviceState).inFlightJob 1 = none →
      (rocket_device_runtime_suspend
        ⟨3, fun c => if c = 1 then some 5 else none, fun _ => true, fun _ => true,
          true, true⟩ 1).1 = 0 ∧
      (rocket_device_runtime_suspend
        ⟨3, fun c => if c = 1 then some 5 else none, fun _ => true, fun _ => true,
          true, true⟩ 1).2.1.aClkOn 1 = false ∧
      (rocket_device_runtime_suspend
        ⟨3, fun c => if c = 1 then some 5 else none, fun _ => true, fun _ => true,
          true, true⟩ 1).2.1.hClkOn 1 = false ∧
      (rocket_device_runtime_suspend
        ⟨3, fun c => if c = 1 then some 5 else none, fun _ => true, fun _ => true,
          true, true⟩ 1).2.1.inFlightJob =
        (⟨3, fun c => if c = 1 then some 5 else none, fun _ => true, fun _ => true,
          true, true⟩ : PmDeviceState).inFlightJob) ∧
    PmEvent.hwWait ∉
      (rocket_device_runtime_suspend
        ⟨3, fun c => if c = 1 then some 5 else none, fun _ => true, fun _ => true,
          true, true⟩ 1).2.2 :=
  c7_runtime_suspend_busy_or_idle
    ⟨3, fun c => if c = 1 then some 5 else none, fun _ => true, fun _ => true,
      true, true⟩ 1 (by decide)

/-- C8: FINI_BO on a valid handle syncs every secondary core for the device
using exactly the access mode recorded by the most recent PREP_BO
(`last_cpu_prep_op`), emits the missing-prepare warning exactly when no
prepare recorded a mode (the recorded op is 0), and returns success (0) in
either case — the warning is never propagated as an error. -/
theorem c8_fini_uses_recorded_op (st : DeviceState) (handle : Nat)
    (obj : RocketGemObject) (hl : lookupHandle st handle = some obj) :
    (rocket_ioctl_fini_bo st handle).ret = 0 ∧
    (rocket_ioctl_fini_bo st handle).events =
      (if obj.last_cpu_prep_op = 0 then [SyncEvent.warnNoPrep] else []) ++
      (secondaryCores st.numCores).map
        (fun c => SyncEvent.syncForDevice c
          (rocket_op_to_dma_dir obj.last_cpu_prep_op)) ∧
    (SyncEvent.warnNoPrep ∈ (rocket_ioctl_fini_bo st handle).events ↔
      obj.last_cpu_prep_op = 0) := by
  have heq : rocket_ioctl_fini_bo st handle =
      ⟨0, setHandle st handle { obj with last_cpu_prep_op := 0 },
        (if obj.last_cpu_prep_op = 0 then [SyncEvent.warnNoPrep] else []) ++
        (secondaryCores st.numCores).map
          (fun c => SyncEvent.syncForDevice c
            (rocket_op_to_dma_dir obj.last_cpu_prep_op))⟩ := by
    unfold rocket_ioctl_fini_bo
    rw [hl]
  rw [heq]
  refine ⟨rfl, rfl, ?_⟩
  constructor
  · intro hmem
    by_contra hne
    rw [if_neg hne] at hmem
    simp only [List.nil_append, List.mem_map] at hmem
    obtain ⟨c, _, hcontra⟩ := hmem
    exact SyncEvent.noConfusion hcontra
  · intro hz
    rw [if_pos hz]
    simp

/-- C8 witness: concrete device where the recorded op is WRITE — no warning,
sync for device in the CPU-to-device direction, success. -/
theorem c8_fini_uses_recorded_op_witness :
    (rocket_ioctl_fini_bo ⟨2, [(7, ⟨4096, 0, 2⟩)]⟩ 7).ret = 0 ∧
    (rocket_ioctl_fini_bo ⟨2, [(7, ⟨4096, 0, 2⟩)]⟩ 7).events =
      (if (2 : Nat) = 0 then [SyncEvent.warnNoPrep] else []) ++
      (secondaryCores 2).map
        (fun c => SyncEvent.syncForDevice c (rocket_op_to_dma_dir 2)) ∧
    (SyncEvent.warnNoPrep ∈ (rocket_ioctl_fini_bo ⟨2, [(7, ⟨4096, 0, 2⟩)]⟩ 7).events ↔
      (2 : Nat) = 0) :=
  c8_fini_uses_recorded_op ⟨2, [(7, ⟨4096, 0, 2⟩)]⟩ 7 ⟨4096, 0, 2⟩ (by decide)

/-- C9: PREP_BO and FINI_BO called with a handle that does not resolve in the
calling context fail (-ENOENT, the driver's bad-handle rejection) with no
side effects: the state is returned unchanged and no sync or warning event
is emitted. -/
theorem c9_invalid_handle_no_side_effects (st : DeviceState)
    (handle op timeout : Nat) (waitRet : Int)
    (hop : op &&& (ROCKET_PREP_READ ||| ROCKET_PREP_WRITE) = op)
    (hl : lookupHandle st handle = none) :
    rocket_ioctl_prep_bo st handle op timeout waitRet =
      ⟨-ENOENT, st, []⟩ ∧
    rocket_ioctl_fini_bo st handle = ⟨-ENOENT, st, []⟩ := by
  constructor
  · unfold rocket_ioctl_prep_bo
    rw [if_neg (by simp [hop])]
    rw [hl]
  · unfold rocket_ioctl_fini_bo
    rw [hl]

/-- C9 witness: handle 9 is absent from a table holding only handle 7. -/
theorem c9_invalid_handle_no_side_effects_witness :
    rocket_ioctl_prep_bo ⟨2, [(7, ⟨4096, 0, 0⟩)]⟩ 9 ROCKET_PREP_READ 0 0 =
      ⟨-ENOENT, ⟨2, [(7, ⟨4096, 0, 0⟩)]⟩, []⟩ ∧
    rocket_ioctl_fini_bo ⟨2, [(7, ⟨4096, 0, 0⟩)]⟩ 9 =
      ⟨-ENOENT, ⟨2, [(7, ⟨4096, 0, 0⟩)]⟩, []⟩ :=
  c9_invalid_handle_no_side_effects ⟨2, [(7, ⟨4096, 0, 0⟩)]⟩ 9 ROCKET_PREP_READ 0 0
    (by decide) (by decide)

/-- C10: PREP_BO with op = 0 passes the op-mask validation, syncs every
secondary core for the CPU in the bidirectional direction, records 0 as the
last prepared access mode, and an immediately following FINI_BO on the same
buffer takes the missing-prepare warning path. -/
theorem c10_zero_op_prep_then_fini_warns (st : DeviceState)
    (handle timeout : Nat) (waitRet : Int) (obj : RocketGemObject)
    (hl : lookupHandle st handle = some obj) :
    (rocket_ioctl_prep_bo st handle 0 timeout waitRet).events =
      (secondaryCores st.numCores).map
        (fun c => SyncEvent.syncForCpu c DmaDataDirection.bidirectional) ∧
    lookupHandle (rocket_ioctl_prep_bo st handle 0 timeout waitRet).st handle =
      some { obj with last_cpu_prep_op := 0 } ∧
    SyncEvent.warnNoPrep ∈
      (rocket_ioctl_fini_bo (rocket_ioctl_prep_bo st handle 0 timeout waitRet).st
        handle).events := by
  have hnv : ¬ ((0 : Nat) &&& (ROCKET_PREP_READ ||| ROCKET_PREP_WRITE) ≠ 0) := by
    decide
  have hprep :
      rocket_ioctl_prep_bo st handle 0 timeout waitRet =
        ⟨if waitRet = 0 then (if timeout ≠ 0 then -ETIMEDOUT else -EBUSY) else waitRet,
          setHandle st handle { obj with last_cpu_prep_op := 0 },
          (secondaryCores st.numCores).map
            (fun c => SyncEvent.syncForCpu c (rocket_op_to_dma_dir 0))⟩ := by
    unfold rocket_ioctl_prep_bo
    rw [if_neg hnv]
    rw [hl]
  have hdir : rocket_op_to_dma_dir 0 = DmaDataDirection.bidirectional := by decide
  have hlook :
      lookupHandle (rocket_ioctl_prep_bo st handle 0 timeout waitRet).st handle =
        some { obj with last_cpu_prep_op := 0 } := by
    rw [hprep]
    exact lookupHandle_setHandle_same st handle { obj with last_cpu_prep_op := 0 }
      obj hl
  refine ⟨?_, hlook, ?_⟩
  · rw [hprep, hdir]
  · unfold rocket_ioctl_fini_bo
    rw [hlook]
    simp

/-- C10 witness: concrete run with one secondary core and handle 7. -/
theorem c10_zero_op_prep_then_fini_warns_witness :
    (rocket_ioctl_prep_bo ⟨2, [(7, ⟨4096, 0, 3⟩)]⟩ 7 0 0 1).events =
      (secondaryCores 2).map
        (fun c => SyncEvent.syncForCpu c DmaDataDirection.bidirectional) ∧
    lookupHandle (rocket_ioctl_prep_bo ⟨2, [(7, ⟨4096, 0, 3⟩)]⟩ 7 0 0 1).st 7 =
      some ⟨4096, 0, 0⟩ ∧
    SyncEvent.warnNoPrep ∈
      (rocket_ioctl_fini_bo (rocket_ioctl_prep_bo ⟨2, [(7, ⟨4096, 0, 3⟩)]⟩ 7 0 0 1).st
        7).events :=
  c10_zero_op_prep_then_fini_warns ⟨2, [(7, ⟨4096, 0, 3⟩)]⟩ 7 0 1 ⟨4096, 0, 3⟩
    (by decide)

end Rocket
